import Mathlib

set_option maxHeartbeats 1000000

/-!
Shallow embedding of the credit-risk inference service (`src/app.py`):
the artifact loader `load_models`, and the `/predict` endpoint with its
two-path scoring strategy, stage-classified error handling, response
message formatting and rule-based rationale engine.

Python exceptions are modelled with `Option`/`Except`; machine floats are
modelled as exact rationals; the external artifacts (preprocessor, sklearn
wrapper, low-level booster) are modelled as record fields holding the
functions the handler calls on them.
-/

namespace CreditRisk

/-- A scalar JSON value in a feature record: a number or a categorical string. -/
inductive Value where
  | num (q : ℚ)
  | str (s : String)
deriving DecidableEq

/-- A raw feature record: a mapping from feature name to scalar value
(one loan application), as decoded from the request JSON object. -/
abbrev Record := List (String × Value)

/-- Column access `df.get(key, [None])[0]`: an absent column yields `none`
(Python `None`). -/
def getField (r : Record) (k : String) : Option Value :=
  List.lookup k r

/-- Digit run to a natural number; `none` when empty or a non-digit occurs. -/
def digitsToNatCore : List Char → ℕ → Option ℕ
  | [], acc => some acc
  | c :: cs, acc =>
      if c.isDigit then digitsToNatCore cs (acc * 10 + (c.toNat - 48)) else none

/-- Parse a non-empty all-digit character run. -/
def digitsToNat (cs : List Char) : Option ℕ :=
  if cs.isEmpty then none else digitsToNatCore cs 0

/-- Unsigned decimal literal: `digits`, `digits.digits`, `digits.` or `.digits`.
The value is assembled with integer arithmetic and `Rat.divInt` so that it
evaluates by kernel reduction. -/
def parseUnsigned (cs : List Char) : Option ℚ :=
  match cs.splitOn '.' with
  | [intPart] => (digitsToNat intPart).map (fun n => Rat.divInt (n : ℤ) 1)
  | [intPart, fracPart] =>
      if intPart.isEmpty && fracPart.isEmpty then none
      else
        let ip := if intPart.isEmpty then some 0 else digitsToNat intPart
        let fp := if fracPart.isEmpty then some 0 else digitsToNat fracPart
        match ip, fp with
        | some i, some f =>
            some (Rat.divInt ((i : ℤ) * (10 : ℤ) ^ fracPart.length + (f : ℤ))
              ((10 : ℤ) ^ fracPart.length))
        | _, _ => none
  | _ => none

/-- Model of Python `float(str)` restricted to plain decimal literals with an
optional sign (exponents and special values are out of scope): `none` models
the `ValueError` raised on a non-numeric string. -/
def parseRat (s : String) : Option ℚ :=
  match s.data with
  | '-' :: rest => (parseUnsigned rest).map (fun q => Rat.divInt (-q.num) (q.den : ℤ))
  | '+' :: rest => parseUnsigned rest
  | cs => parseUnsigned cs

/-- Model of Python `float(x)` on a record value: numbers pass through,
strings must parse as decimal literals; `none` models the raised error. -/
def pyFloat : Value → Option ℚ
  | .num q => some q
  | .str s => parseRat s

/-- Model of `float(df.get(key, [None])[0])`: `none` when the column is
absent (`float(None)` raises `TypeError`) or its value is non-numeric. -/
def getFloatField (r : Record) (k : String) : Option ℚ :=
  (getField r k).bind pyFloat

/-- The fallback tag installed by the `except` arm of the rationale block. -/
def ratUnavailable : String := "Rationale unavailable"

/-- The body of the rationale `try:` block in `predict` (app.py lines
156-180), sequential as in the source; `none` models an exception escaping
the block. The `is not None` guards after a successful `float(...)` are
always true in the source and are therefore absorbed. -/
def rationaleParts (r : Record) : Option (List String) := do
  let lpi ← getFloatField r "loan_percent_income"
  let t1 : List String :=
    if lpi > Rat.divInt 6 10 then ["High loan-to-income ratio"]
    else if lpi < Rat.divInt 2 10 then ["Low loan-to-income ratio"]
    else []
  let ir ← getFloatField r "loan_int_rate"
  let t2 : List String :=
    if ir > 20 then ["Very high interest rate"]
    else if ir < 8 then ["Favorable interest rate"]
    else []
  let ch ← getFloatField r "cb_person_cred_hist_length"
  let t3 : List String :=
    if ch < 2 then ["Short credit history"]
    else if ch > 8 then ["Established credit history"]
    else []
  let t4 : List String :=
    if getField r "cb_person_default_on_file" = some (.str "Y")
    then ["Previous default on file"] else []
  let parts := t1 ++ t2 ++ t3 ++ t4
  pure (if parts.isEmpty then ["Typical risk profile for provided features"] else parts)

/-- The rationale tag list: the try-block result, or the single fallback tag
when the block raised. -/
def rationale (r : Record) : List String :=
  (rationaleParts r).getD [ratUnavailable]

/-- Written from the spec's rule list (spec section 4.4), for the refinement
claim C2: the fixed rule set over already-parsed numeric fields and the
prior-default flag, in the spec's evaluation order, with the no-rule default. -/
def specRuleTags (lpi ir ch : ℚ) (priorDefault : Bool) : List String :=
  let a := if lpi > Rat.divInt 6 10 then ["High loan-to-income ratio"]
    else if lpi < Rat.divInt 2 10 then ["Low loan-to-income ratio"] else []
  let b := if ir > 20 then ["Very high interest rate"]
    else if ir < 8 then ["Favorable interest rate"] else []
  let c := if ch < 2 then ["Short credit history"]
    else if ch > 8 then ["Established credit history"] else []
  let d := if priorDefault then ["Previous default on file"] else []
  let all := a ++ b ++ c ++ d
  if all.isEmpty then ["Typical risk profile for provided features"] else all

/-- A transformed single-row numeric matrix (output of the preprocessor). -/
abbrev Matrix := List ℚ

/-- The low-level scoring engine extracted from the wrapper; its raw output
for one row is already flattened to a list of rationals, and any exception
it raises is an `Except.error`. -/
structure Booster where
  predictRaw : Matrix → Except String (List ℚ)

/-- The classifier wrapper: `getBooster` models
`model.get_booster() if hasattr(model, 'get_booster') else None`;
the other two fields model the wrapper's high-level scoring methods,
each of which may raise. -/
structure Model where
  getBooster : Option Booster
  wrapperPredict : Matrix → Except String (List ℤ)
  wrapperPredictProba : Matrix → Except String (List (List ℚ))

/-- The fitted preprocessor: `transform` may raise on bad input. -/
structure Preprocessor where
  transform : Record → Except String Matrix

/-- Indexing `l[0]`: raises `IndexError` on an empty array. -/
def elem0 {α : Type} : List α → Except String α
  | [] => .error "index 0 is out of bounds"
  | a :: _ => .ok a

/-- Indexing `l[i]`: raises `IndexError` past the end. -/
def elemAt {α : Type} (l : List α) (i : ℕ) : Except String α :=
  match l.get? i with
  | some a => .ok a
  | none => .error "index is out of bounds"

/-- The scoring step of `predict` (app.py lines 126-142): primary path via
the extracted booster (`prob.ravel()[0]`, threshold 0.5), fallback path via
the wrapper's `predict`/`predict_proba` (`[0]` and `[0][1]`). Returns the
(label, probability) pair or the raised error. -/
def score (m : Model) (x : Matrix) : Except String (ℤ × ℚ) :=
  match m.getBooster with
  | some b => do
      let raw ← b.predictRaw x
      let p ← elem0 raw
      pure ((if Rat.divInt 1 2 ≤ p then 1 else 0), p)
  | none => do
      let preds ← m.wrapperPredict x
      let lab ← elem0 preds
      let probas ← m.wrapperPredictProba x
      let row ← elem0 probas
      let p ← elemAt row 1
      pure (lab, p)

/-- The value `p * 10000` rounded half to even (the rounding used by Python string
formatting), computed on the numerator and denominator so that it evaluates
by kernel reduction. -/
def scaled10000Rhe (p : ℚ) : ℤ :=
  let n := p.num * 10000
  let d := (p.den : ℤ)
  let f := Int.fdiv n d
  let r2 := 2 * (n - f * d)
  if r2 < d then f
  else if d < r2 then f + 1
  else if f % 2 = 0 then f else f + 1

/-- Two-digit zero-padded rendering of a value below 100. -/
def pad2 (n : ℕ) : String :=
  if n < 10 then "0" ++ toString n else toString n

/-- Python f-string `{p:.2%}`: the value times 100, rounded to two decimal
places, with a trailing percent sign. -/
def formatPercent2 (p : ℚ) : String :=
  let n := scaled10000Rhe p
  let sign := if n < 0 then "-" else ""
  let m := n.natAbs
  sign ++ toString (m / 100) ++ "." ++ pad2 (m % 100) ++ "%"

/-- The endpoint response: a success payload or an error with HTTP status. -/
inductive Response where
  | ok (prediction : ℤ) (probability : ℚ)
       (message riskLevel rationaleText : String)
  | err (status : ℕ) (errorMessage : String)
deriving DecidableEq

/-- The HTTP status attached to a response (200 on success). -/
def Response.status : Response → ℕ
  | .ok _ _ _ _ _ => 200
  | .err s _ => s

/-- The not-ready error body (app.py line 101). -/
def notLoadedMsg : String := "Models not loaded. Please ensure model files are available."

/-- The low-risk message (app.py line 151). -/
def lowRiskMessage (p : ℚ) : String :=
  "Low Risk: This loan application has a " ++ formatPercent2 p ++
    " probability of default. Recommended for approval."

/-- The high-risk message (app.py line 153). -/
def highRiskMessage (p : ℚ) : String :=
  "High Risk: This loan application has a " ++ formatPercent2 p ++
    " probability of default. Not recommended for approval."

/-- The `/predict` endpoint handler (app.py lines 94-200). The module-level
globals `model` and `preprocessor` are passed as explicit optional state;
`data?` is the decoded request JSON (`none` when absent, and an empty object
is also falsy in the source's `if not data:` check). -/
def predict (model? : Option Model) (preprocessor? : Option Preprocessor)
    (data? : Option Record) : Response :=
  match model?, preprocessor? with
  | some model, some preprocessor =>
    match data? with
    | none => .err 400 "No data provided"
    | some r =>
      if r = [] then .err 400 "No data provided"
      else
        match preprocessor.transform r with
        | .error e => .err 400 ("Data preprocessing failed: " ++ e)
        | .ok x =>
          match score model x with
          | .error e => .err 500 ("Prediction failed: " ++ e)
          | .ok (pred, prob) =>
            .ok pred prob
              (if pred = 0 then lowRiskMessage prob else highRiskMessage prob)
              (if pred = 1 then "High Risk" else "Low Risk")
              (String.intercalate ", " (rationale r))
  | _, _ => .err 500 notLoadedMsg

/-- The environment `load_models` runs against: file presence, whether each
deserialization succeeds, and whether each individual compatibility patch
raises when attempted. -/
structure LoadEnv where
  preprocFileExists : Bool
  preprocLoadOk : Bool
  modelFileExists : Bool
  modelLoadOk : Bool
  hasUseLabelEncoder : Bool
  setUseLabelEncoderOk : Bool
  setParamsOk : Bool
  hasGetBooster : Bool
  boosterSetParamOk : Bool

/-- An operation that either succeeds or raises the given message. -/
def attempt (ok : Bool) (msg : String) : Except String Unit :=
  if ok then .ok () else .error msg

/-- A `try: body except: pass`-style swallow of any raised error. -/
def swallow (body : Except String Unit) : Except String Unit :=
  match body with
  | .ok _ => .ok ()
  | .error _ => .ok ()

/-- The body of `load_models` (app.py lines 21-83) in an exception monad: the outer
`try` catches deserialization failures (returning `False`); the
`use_label_encoder` patch, the CPU-parameter block, and the embedded booster
patch each sit in their own local `try`/`except` and never propagate. -/
def load_modelsE (e : LoadEnv) : Except String Bool := do
  if e.preprocFileExists then
    attempt e.preprocLoadOk "preprocessor deserialization failed"
  else
    return false
  if e.modelFileExists then
    attempt e.modelLoadOk "model deserialization failed"
  else
    return false
  if !e.hasUseLabelEncoder then
    swallow (attempt e.setUseLabelEncoderOk "setattr use_label_encoder failed")
  else
    pure ()
  swallow (do
    attempt e.setParamsOk "set_params failed"
    if e.hasGetBooster then
      swallow (attempt e.boosterSetParamOk "booster set_param failed")
    else
      pure ())
  return true

/-- The function `load_models` as a Boolean result: the outer `except` arm turns any
escaped exception into `False`. -/
def load_models (e : LoadEnv) : Bool :=
  match load_modelsE e with
  | .ok b => b
  | .error _ => false

/-! ### String-shape properties and list infrastructure -/

/-- The string `s` begins with `p`. -/
def strStartsWith (p s : String) : Prop :=
  ∃ t : List Char, s.data = p.data ++ t

/-- The string `s` ends with `q`. -/
def strEndsWith (q s : String) : Prop :=
  ∃ t : List Char, s.data = t ++ q.data

/-- The string `m` occurs inside `s`. -/
def strContains (m s : String) : Prop :=
  ∃ a b : List Char, s.data = a ++ m.data ++ b

theorem append_data (a b : String) : (a ++ b).data = a.data ++ b.data := rfl

theorem exc_bind_ok {ε α β : Type} (a : α) (f : α → Except ε β) :
    (Except.ok a >>= f) = f a := rfl

theorem exc_bind_error {ε α β : Type} (e : ε) (f : α → Except ε β) :
    ((Except.error e : Except ε α) >>= f) = .error e := rfl

theorem exc_map_ok {ε α β : Type} (g : α → β) (a : α) :
    (g <$> (Except.ok a : Except ε α)) = .ok (g a) := rfl

theorem exc_map_error {ε α β : Type} (g : α → β) (e : ε) :
    (g <$> (Except.error e : Except ε α)) = .error e := rfl

/-- Whether `pre ++ mid` begins with `p` is decided by the first
`p.length` elements of `pre` when `p` is no longer than `pre`. -/
theorem exists_append_left_iff {α : Type} (pre mid p : List α)
    (hle : p.length ≤ pre.length) :
    (∃ t, pre ++ mid = p ++ t) ↔ pre.take p.length = p := by
  constructor
  · rintro ⟨t, ht⟩
    have h := congrArg (List.take p.length) ht
    rwa [List.take_append_of_le_length hle,
      List.take_append_of_le_length (le_refl p.length), List.take_length] at h
  · intro h
    refine ⟨pre.drop p.length ++ mid, ?_⟩
    conv_lhs => rw [← List.take_append_drop p.length pre]
    rw [h, List.append_assoc]

/-- Whether `mid ++ suf` ends with `q` is decided by the last
`q.length` elements of `suf` when `q` is no longer than `suf`. -/
theorem exists_append_right_iff {α : Type} (mid suf q : List α)
    (hle : q.length ≤ suf.length) :
    (∃ t, mid ++ suf = t ++ q) ↔ suf.drop (suf.length - q.length) = q := by
  constructor
  · rintro ⟨t, ht⟩
    have hlen : mid.length + suf.length = t.length + q.length := by
      have h := congrArg List.length ht
      simpa using h
    have h := congrArg (List.drop (mid.length + (suf.length - q.length))) ht
    rw [List.drop_append] at h
    have htl : mid.length + (suf.length - q.length) = t.length := by omega
    rw [htl, List.drop_left] at h
    exact h
  · intro h
    refine ⟨mid ++ suf.take (suf.length - q.length), ?_⟩
    rw [List.append_assoc]
    congr 1
    conv_lhs => rw [← List.take_append_drop (suf.length - q.length) suf]
    rw [h]

theorem lowMsg_data (p : ℚ) : (lowRiskMessage p).data =
    ("Low Risk: This loan application has a ".data ++ (formatPercent2 p).data) ++
      " probability of default. Recommended for approval.".data := rfl

theorem highMsg_data (p : ℚ) : (highRiskMessage p).data =
    ("High Risk: This loan application has a ".data ++ (formatPercent2 p).data) ++
      " probability of default. Not recommended for approval.".data := rfl

/-- Inversion of a successful run of the `predict` handler: the artifacts
were present, the preprocessing and scoring stages succeeded, and the
response fields are the deterministic functions of the scored pair and the
raw record that the source computes. -/
theorem predict_ok_inv {model? : Option Model} {preproc? : Option Preprocessor}
    {data? : Option Record} {pred : ℤ} {prob : ℚ} {msg rl rat : String}
    (hok : predict model? preproc? data? = .ok pred prob msg rl rat) :
    ∃ model preproc r x, model? = some model ∧ preproc? = some preproc ∧
      data? = some r ∧ preproc.transform r = .ok x ∧
      score model x = .ok (pred, prob) ∧
      msg = (if pred = 0 then lowRiskMessage prob else highRiskMessage prob) ∧
      rl = (if pred = 1 then "High Risk" else "Low Risk") ∧
      rat = String.intercalate ", " (rationale r) := by
  match model?, preproc? with
  | none, _ => simp [predict] at hok
  | some m, none => simp [predict] at hok
  | some m, some p =>
    match data? with
    | none => simp [predict] at hok
    | some r =>
      by_cases hr : r = []
      · simp [predict, hr] at hok
      · cases htr : p.transform r with
        | error e => simp [predict, hr, htr] at hok
        | ok x =>
          cases hsc : score m x with
          | error e => simp [predict, hr, htr, hsc] at hok
          | ok pr =>
            obtain ⟨pd, pb⟩ := pr
            have h2 : Response.ok pd pb
                (if pd = 0 then lowRiskMessage pb else highRiskMessage pb)
                (if pd = 1 then "High Risk" else "Low Risk")
                (String.intercalate ", " (rationale r)) =
                Response.ok pred prob msg rl rat := by
              rw [← hok]
              simp [predict, hr, htr, hsc]
            injection h2 with e1 e2 e3 e4 e5
            subst e1; subst e2; subst e3; subst e4; subst e5
            exact ⟨m, p, r, x, rfl, rfl, rfl, htr, hsc, rfl, rfl, rfl⟩

/-! ### Concrete artifacts and records used by the witnesses -/

/-- A booster whose raw output for any row is the single value 0.7. -/
def demoBooster : Booster := ⟨fun _ => .ok [Rat.divInt 7 10]⟩

/-- A loaded classifier exposing the demo booster. -/
def demoModel : Model :=
  ⟨some demoBooster, fun _ => .ok [0], fun _ => .ok [[Rat.divInt 3 10, Rat.divInt 7 10]]⟩

/-- A loaded classifier with no extractable booster (fallback path). -/
def demoFallbackModel : Model :=
  ⟨none, fun _ => .ok [0], fun _ => .ok [[Rat.divInt 3 10, Rat.divInt 7 10]]⟩

/-- A classifier whose every scoring call raises. -/
def failModel : Model :=
  ⟨some ⟨fun _ => .error "boom"⟩, fun _ => .error "boom", fun _ => .error "boom"⟩

/-- A preprocessor that transforms every record to the row [1, 2]. -/
def demoPre : Preprocessor := ⟨fun _ => .ok [1, 2]⟩

/-- A preprocessor that rejects every record. -/
def badPre : Preprocessor := ⟨fun _ => .error "columns are missing"⟩

/-- The record of the spec's rationale-determinism test: all four rules fire. -/
def tvAllRules : Record :=
  [("loan_percent_income", .num (Rat.divInt 3 4)), ("loan_int_rate", .num 25),
   ("cb_person_cred_hist_length", .num 1), ("cb_person_default_on_file", .str "Y")]

/-- The record of the spec's rationale-fallback test: no rule fires. -/
def tvTypical : Record :=
  [("loan_percent_income", .num (Rat.divInt 3 10)), ("loan_int_rate", .num 15),
   ("cb_person_cred_hist_length", .num 5), ("cb_person_default_on_file", .str "N")]

/-- A record with the interest-rate column absent. -/
def tvMissingRate : Record :=
  [("loan_percent_income", .num (Rat.divInt 3 4)),
   ("cb_person_cred_hist_length", .num 1), ("cb_person_default_on_file", .str "Y")]

/-- A record whose numeric fields parse but with no prior-default column. -/
def tvNoDefaultFlag : Record :=
  [("loan_percent_income", .num (Rat.divInt 3 4)), ("loan_int_rate", .num 25),
   ("cb_person_cred_hist_length", .num 1)]

/-! ### Claims -/

/-- Claim C1: the predictor follows the two-path strategy. When a booster is
extracted from the wrapper, the probability is the first element of the raw
engine output, the label is 1 iff that probability is at least 0.5, and the
result does not consult the wrapper's own predict and predict-probability
methods; when no booster is accessible, the label is the first element of
the wrapper's predict output and the probability is index 1 of the first
row of its predict-probability output. -/
theorem c1_two_path_strategy (m : Model) (x : Matrix) :
    (∀ b, m.getBooster = some b →
      (∀ p rest, b.predictRaw x = .ok (p :: rest) →
        score m x = .ok ((if Rat.divInt 1 2 ≤ p then 1 else 0), p)) ∧
      (∀ wp wpp,
        score { m with wrapperPredict := wp, wrapperPredictProba := wpp } x =
          score m x)) ∧
    (m.getBooster = none →
      ∀ lab lrest p0 p1 prow prest,
        m.wrapperPredict x = .ok (lab :: lrest) →
        m.wrapperPredictProba x = .ok ((p0 :: p1 :: prow) :: prest) →
        score m x = .ok (lab, p1)) := by
  constructor
  · intro b hb
    constructor
    · intro p rest hraw
      simp [score, hb, hraw, elem0, exc_bind_ok, exc_map_ok]
    · intro wp wpp
      simp [score, hb]
  · intro hb lab lrest p0 p1 prow prest hp hpp
    simp [score, hb, hp, hpp, elem0, elemAt, exc_bind_ok, exc_map_ok]

/-- Witness for C1: both paths evaluated on concrete artifacts. -/
theorem c1_witness :
    score demoModel [1] = .ok (1, Rat.divInt 7 10) ∧
    score demoFallbackModel [1] = .ok (0, Rat.divInt 7 10) := by
  constructor
  · have h := ((c1_two_path_strategy demoModel [1]).1 demoBooster rfl).1
      (Rat.divInt 7 10) [] rfl
    have he : (if Rat.divInt 1 2 ≤ Rat.divInt 7 10 then (1 : ℤ) else 0) = 1 := by decide
    rw [he] at h
    exact h
  · exact (c1_two_path_strategy demoFallbackModel [1]).2 rfl 0 []
      (Rat.divInt 3 10) (Rat.divInt 7 10) [] [] rfl rfl

/-- Claim C3: failure classification by stage. A preprocessor `transform`
failure yields a 400-class response whose message contains the underlying
transform failure text; a scoring failure after successful preprocessing
yields a 500-class response. -/
theorem c3_failure_stage (m : Model) (p : Preprocessor) (r : Record)
    (hr : r ≠ []) :
    (∀ e, p.transform r = .error e →
      predict (some m) (some p) (some r) =
        .err 400 ("Data preprocessing failed: " ++ e) ∧
      strContains e ("Data preprocessing failed: " ++ e)) ∧
    (∀ x e, p.transform r = .ok x → score m x = .error e →
      predict (some m) (some p) (some r) =
        .err 500 ("Prediction failed: " ++ e)) := by
  constructor
  · intro e htr
    constructor
    · simp [predict, hr, htr]
    · exact ⟨"Data preprocessing failed: ".data, [], by simp [append_data]⟩
  · intro x e htr hsc
    simp [predict, hr, htr, hsc]

/-- Witness for C3: the two failure stages on concrete artifacts. -/
theorem c3_witness :
    predict (some demoModel) (some badPre) (some tvTypical) =
      .err 400 "Data preprocessing failed: columns are missing" ∧
    predict (some failModel) (some demoPre) (some tvTypical) =
      .err 500 "Prediction failed: boom" := by
  constructor
  · exact ((c3_failure_stage demoModel badPre tvTypical (by decide)).1
      "columns are missing" rfl).1
  · exact (c3_failure_stage failModel demoPre tvTypical (by decide)).2
      [1, 2] "boom" rfl rfl

/-- Counterexample to C6 as stated: the not-ready response carries HTTP
status 500, the same status class as the internal server fault produced by
a scoring failure, and not a `503`-style server-unavailable status; the two
are thus not distinguishable at the status-class level. -/
theorem c6_counterexample :
    (predict none (some demoPre) (some tvTypical)).status = 500 ∧
    (predict (some failModel) (some demoPre) (some tvTypical)).status = 500 ∧
    ¬ (predict none (some demoPre) (some tvTypical)).status = 503 := by
  decide

/-- Claim C6 as amended: calling the endpoint before the artifacts are
loaded fails fast with status 500 and the fixed not-ready message,
regardless of the request body — so no partial work is done — and this is
distinguishable from the client-data fault (status 400) and from any
success (status 200), though only the message text distinguishes it from
the internal server fault. -/
theorem c6_not_ready (model? : Option Model) (preproc? : Option Preprocessor)
    (data? : Option Record) (h : model? = none ∨ preproc? = none) :
    predict model? preproc? data? = .err 500 notLoadedMsg ∧
    (predict model? preproc? data?).status ≠ 400 ∧
    (predict model? preproc? data?).status ≠ 200 := by
  have h1 : predict model? preproc? data? = .err 500 notLoadedMsg := by
    rcases h with h | h
    · subst h; rfl
    · subst h; cases model? <;> rfl
  refine ⟨h1, ?_, ?_⟩ <;> rw [h1] <;> decide

/-- Witness for C6 (amended): not-ready on a concrete request. -/
theorem c6_witness :
    predict none (some demoPre) (some tvTypical) = .err 500 notLoadedMsg ∧
    (predict none (some demoPre) (some tvTypical)).status ≠ 400 ∧
    (predict none (some demoPre) (some tvTypical)).status ≠ 200 :=
  c6_not_ready none (some demoPre) (some tvTypical) (Or.inl rfl)

/-- Claim C8: compatibility patching is non-fatal. `load_models` reports
success exactly when both artifact files exist and deserialize, whatever
the outcomes of the individual compatibility patches (the label-encoder
flag, the CPU parameters on the wrapper, the CPU parameters on the embedded
booster); in particular an absent label-encoder flag is never an error. -/
theorem c8_patching_nonfatal (e : LoadEnv) :
    load_models e = (e.preprocFileExists && e.preprocLoadOk &&
      e.modelFileExists && e.modelLoadOk) := by
  rcases e with ⟨pf, pl, mf, ml, hu, su, sp, hg, bs⟩
  cases pf <;> cases pl <;> cases mf <;> cases ml <;> cases hu <;> cases su <;>
    cases sp <;> cases hg <;> cases bs <;> rfl

/-- Claim C9: inference is deterministic and idempotent — with the loaded
artifacts unchanged, two calls on identical records produce identical
responses. -/
theorem c9_idempotent (model? : Option Model) (preproc? : Option Preprocessor)
    (r₁ r₂ : Option Record) (h : r₁ = r₂) :
    predict model? preproc? r₁ = predict model? preproc? r₂ := by
  rw [h]

/-- Witness for C9: two identical calls on a concrete record. -/
theorem c9_witness :
    predict (some demoModel) (some demoPre) (some tvTypical) =
      predict (some demoModel) (some demoPre) (some tvTypical) :=
  c9_idempotent (some demoModel) (some demoPre) (some tvTypical)
    (some tvTypical) rfl

/-- When the three numeric drivers parse, the rationale engine computes
exactly the fixed rule set over the parsed values and the prior-default
comparison. -/
theorem rationale_eq_rules (r : Record) (lpi ir ch : ℚ)
    (h1 : getFloatField r "loan_percent_income" = some lpi)
    (h2 : getFloatField r "loan_int_rate" = some ir)
    (h3 : getFloatField r "cb_person_cred_hist_length" = some ch) :
    rationale r = specRuleTags lpi ir ch
      (decide (getField r "cb_person_default_on_file" = some (.str "Y"))) := by
  unfold rationale rationaleParts specRuleTags
  rw [h1, h2, h3]
  by_cases hd : getField r "cb_person_default_on_file" = some (.str "Y")
  · simp [hd]
  · simp [hd]

/-- Claim C2: for a record whose numeric fields parse, the rationale engine
equals the fixed rule set written from the spec, in its evaluation order:
the loan-to-income pair, the interest-rate pair, the credit-history pair
(each mutually exclusive), the additive prior-default tag, no other tags,
and the single typical-risk tag when no rule fires. -/
theorem c2_rationale_rules (r : Record) (lpi ir ch : ℚ)
    (h1 : getFloatField r "loan_percent_income" = some lpi)
    (h2 : getFloatField r "loan_int_rate" = some ir)
    (h3 : getFloatField r "cb_person_cred_hist_length" = some ch) :
    rationale r = specRuleTags lpi ir ch
      (decide (getField r "cb_person_default_on_file" = some (.str "Y"))) :=
  rationale_eq_rules r lpi ir ch h1 h2 h3

/-- Witness for C2: the spec's two rationale test vectors, evaluated. -/
theorem c2_witness :
    rationale tvAllRules = ["High loan-to-income ratio", "Very high interest rate",
      "Short credit history", "Previous default on file"] ∧
    rationale tvTypical = ["Typical risk profile for provided features"] := by
  constructor
  · have h := c2_rationale_rules tvAllRules (Rat.divInt 3 4) 25 1
      (by decide) (by decide) (by decide)
    rw [h]; decide
  · have h := c2_rationale_rules tvTypical (Rat.divInt 3 10) 15 5
      (by decide) (by decide) (by decide)
    rw [h]; decide

/-- Claim C7: rationale degradation is atomic. If any numeric driver is
absent or does not parse, the rationale is exactly the single unavailable
tag — never a partial tag list — and the inference response as a whole
still succeeds, carrying that tag as its rationale text. -/
theorem c7_rationale_atomic (m : Model) (p : Preprocessor) (r : Record)
    (x : Matrix) (pred : ℤ) (prob : ℚ) (hr : r ≠ [])
    (hfail : getFloatField r "loan_percent_income" = none ∨
             getFloatField r "loan_int_rate" = none ∨
             getFloatField r "cb_person_cred_hist_length" = none)
    (htr : p.transform r = .ok x) (hsc : score m x = .ok (pred, prob)) :
    rationale r = [ratUnavailable] ∧
    predict (some m) (some p) (some r) =
      .ok pred prob
        (if pred = 0 then lowRiskMessage prob else highRiskMessage prob)
        (if pred = 1 then "High Risk" else "Low Risk") ratUnavailable := by
  have hparts : rationaleParts r = none := by
    unfold rationaleParts
    rcases hfail with h | h | h
    · simp [h]
    · cases hl : getFloatField r "loan_percent_income" <;> simp [hl, h]
    · cases hl : getFloatField r "loan_percent_income" <;>
        cases hi : getFloatField r "loan_int_rate" <;> simp [hl, hi, h]
  have hrat : rationale r = [ratUnavailable] := by simp [rationale, hparts]
  refine ⟨hrat, ?_⟩
  have hint : String.intercalate ", " [ratUnavailable] = ratUnavailable := by decide
  simp [predict, hr, htr, hsc, hrat, hint]

/-- Witness for C7: a record missing the interest-rate column still yields a
successful response whose rationale is the single unavailable tag. -/
theorem c7_witness :
    rationale tvMissingRate = [ratUnavailable] ∧
    predict (some demoModel) (some demoPre) (some tvMissingRate) =
      .ok 1 (Rat.divInt 7 10) (highRiskMessage (Rat.divInt 7 10)) "High Risk"
        ratUnavailable := by
  have h := c7_rationale_atomic demoModel demoPre tvMissingRate [1, 2] 1
    (Rat.divInt 7 10) (by decide) (Or.inr (Or.inl (by decide))) rfl rfl
  obtain ⟨ha, hb⟩ := h
  refine ⟨ha, ?_⟩
  rw [hb]
  decide

/-- The rule set with the prior-default flag off never emits the
prior-default tag and never collapses to the unavailable tag. -/
theorem specRuleTags_no_default (lpi ir ch : ℚ) :
    "Previous default on file" ∉ specRuleTags lpi ir ch false ∧
    specRuleTags lpi ir ch false ≠ [ratUnavailable] := by
  simp only [specRuleTags]
  constructor <;> (repeat' split) <;> first | decide | simp_all

/-- Claim C10: an absent (or non-positive, e.g. absent-`None` or other
value) prior-default flag does not degrade the rationale: when the three
numeric drivers parse, the result is never the unavailable tag and simply
carries no prior-default tag. -/
theorem c10_default_flag_lenient (r : Record) (lpi ir ch : ℚ)
    (h1 : getFloatField r "loan_percent_income" = some lpi)
    (h2 : getFloatField r "loan_int_rate" = some ir)
    (h3 : getFloatField r "cb_person_cred_hist_length" = some ch)
    (h4 : getField r "cb_person_default_on_file" ≠ some (.str "Y")) :
    rationale r ≠ [ratUnavailable] ∧
    "Previous default on file" ∉ rationale r := by
  have heq : rationale r = specRuleTags lpi ir ch false := by
    have h := rationale_eq_rules r lpi ir ch h1 h2 h3
    rwa [decide_eq_false h4] at h
  rw [heq]
  exact ⟨(specRuleTags_no_default lpi ir ch).2, (specRuleTags_no_default lpi ir ch).1⟩

/-- Witness for C10: the record with no prior-default column. -/
theorem c10_witness :
    rationale tvNoDefaultFlag ≠ [ratUnavailable] ∧
    "Previous default on file" ∉ rationale tvNoDefaultFlag :=
  c10_default_flag_lenient tvNoDefaultFlag (Rat.divInt 3 4) 25 1
    (by decide) (by decide) (by decide) (by decide)

theorem low_msg_shapes (prob : ℚ) :
    strStartsWith "Low Risk:" (lowRiskMessage prob) ∧
    strEndsWith "Recommended for approval." (lowRiskMessage prob) ∧
    ¬ strStartsWith "High Risk:" (lowRiskMessage prob) ∧
    ¬ strEndsWith "Not recommended for approval." (lowRiskMessage prob) ∧
    strContains (formatPercent2 prob) (lowRiskMessage prob) := by
  refine ⟨?_, ?_, ?_, ?_, ?_⟩
  · rw [strStartsWith, lowMsg_data, List.append_assoc,
      exists_append_left_iff _ _ _ (by decide)]
    decide
  · rw [strEndsWith, lowMsg_data, exists_append_right_iff _ _ _ (by decide)]
    decide
  · rw [strStartsWith, lowMsg_data, List.append_assoc,
      exists_append_left_iff _ _ _ (by decide)]
    decide
  · rw [strEndsWith, lowMsg_data, exists_append_right_iff _ _ _ (by decide)]
    decide
  · rw [strContains, lowMsg_data]
    exact ⟨"Low Risk: This loan application has a ".data,
      " probability of default. Recommended for approval.".data, rfl⟩

theorem high_msg_shapes (prob : ℚ) :
    strStartsWith "High Risk:" (highRiskMessage prob) ∧
    strEndsWith "Not recommended for approval." (highRiskMessage prob) ∧
    ¬ strStartsWith "Low Risk:" (highRiskMessage prob) ∧
    ¬ strEndsWith "Recommended for approval." (highRiskMessage prob) ∧
    strContains (formatPercent2 prob) (highRiskMessage prob) := by
  refine ⟨?_, ?_, ?_, ?_, ?_⟩
  · rw [strStartsWith, highMsg_data, List.append_assoc,
      exists_append_left_iff _ _ _ (by decide)]
    decide
  · rw [strEndsWith, highMsg_data, exists_append_right_iff _ _ _ (by decide)]
    decide
  · rw [strStartsWith, highMsg_data, List.append_assoc,
      exists_append_left_iff _ _ _ (by decide)]
    decide
  · rw [strEndsWith, highMsg_data, exists_append_right_iff _ _ _ (by decide)]
    decide
  · rw [strContains, highMsg_data]
    exact ⟨"High Risk: This loan application has a ".data,
      " probability of default. Not recommended for approval.".data, rfl⟩

/-- Claim C4: for every successful inference response, the risk level is
"High Risk" iff the prediction is 1; the message starts with "High Risk:"
and ends with "Not recommended for approval." exactly when the prediction
is 1, and starts with "Low Risk:" and ends with
"Recommended for approval." exactly when it is 0; and the probability
appears in the message percent-formatted with two decimal places. -/
theorem c4_message_shape (model? : Option Model) (preproc? : Option Preprocessor)
    (data? : Option Record) (pred : ℤ) (prob : ℚ) (msg rl rat : String)
    (hok : predict model? preproc? data? = .ok pred prob msg rl rat)
    (hbin : pred = 0 ∨ pred = 1) :
    (rl = "High Risk" ↔ pred = 1) ∧
    ((strStartsWith "High Risk:" msg ∧
      strEndsWith "Not recommended for approval." msg) ↔ pred = 1) ∧
    ((strStartsWith "Low Risk:" msg ∧
      strEndsWith "Recommended for approval." msg) ↔ pred = 0) ∧
    strContains (formatPercent2 prob) msg := by
  obtain ⟨model, preproc, r, x, -, -, -, -, -, hmsg, hrl, -⟩ := predict_ok_inv hok
  rcases hbin with h0 | h1
  · subst h0
    rw [if_pos rfl] at hmsg
    rw [if_neg (by decide)] at hrl
    subst hmsg; subst hrl
    obtain ⟨hps, hpe, hns, hne, hc⟩ := low_msg_shapes prob
    refine ⟨?_, ?_, ?_, hc⟩
    · constructor
      · intro h; exact absurd h (by decide)
      · intro h; exact absurd h (by decide)
    · constructor
      · rintro ⟨hs, -⟩; exact absurd hs hns
      · intro h; exact absurd h (by decide)
    · exact ⟨fun _ => rfl, fun _ => ⟨hps, hpe⟩⟩
  · subst h1
    rw [if_neg (by decide)] at hmsg
    rw [if_pos rfl] at hrl
    subst hmsg; subst hrl
    obtain ⟨hps, hpe, hns, hne, hc⟩ := high_msg_shapes prob
    refine ⟨⟨fun _ => rfl, fun _ => rfl⟩, ⟨fun _ => rfl, fun _ => ⟨hps, hpe⟩⟩, ?_, hc⟩
    constructor
    · rintro ⟨hs, -⟩; exact absurd hs hns
    · intro h; exact absurd h (by decide)

/-- Witness for C4: the message-shape facts evaluated on the demo model's
high-risk response. -/
theorem c4_witness :
    (("High Risk" : String) = "High Risk" ↔ (1 : ℤ) = 1) ∧
    ((strStartsWith "High Risk:" (highRiskMessage (Rat.divInt 7 10)) ∧
      strEndsWith "Not recommended for approval."
        (highRiskMessage (Rat.divInt 7 10))) ↔ (1 : ℤ) = 1) ∧
    ((strStartsWith "Low Risk:" (highRiskMessage (Rat.divInt 7 10)) ∧
      strEndsWith "Recommended for approval."
        (highRiskMessage (Rat.divInt 7 10))) ↔ (1 : ℤ) = 0) ∧
    strContains (formatPercent2 (Rat.divInt 7 10))
      (highRiskMessage (Rat.divInt 7 10)) :=
  c4_message_shape (some demoModel) (some demoPre) (some tvTypical) 1
    (Rat.divInt 7 10) (highRiskMessage (Rat.divInt 7 10)) "High Risk"
    "Typical risk profile for provided features" (by decide) (Or.inr rfl)

/-- Claim C5: for every record on which inference succeeds — given that the
external artifacts behave as a binary probabilistic classifier (raw booster
outputs and probability rows within [0,1], wrapper labels within {0,1}) —
the returned probability lies in [0,1] and the returned prediction is 0 or
1, on both the booster path and the wrapper fallback path. -/
theorem c5_output_ranges (m : Model) (preproc? : Option Preprocessor)
    (data? : Option Record) (pred : ℤ) (prob : ℚ) (msg rl rat : String)
    (hok : predict (some m) preproc? data? = .ok pred prob msg rl rat)
    (hboost : ∀ b x l q, m.getBooster = some b → b.predictRaw x = .ok l →
      q ∈ l → 0 ≤ q ∧ q ≤ 1)
    (hwpred : ∀ x l lab, m.wrapperPredict x = .ok l → lab ∈ l →
      lab = 0 ∨ lab = 1)
    (hwproba : ∀ x rows row q, m.wrapperPredictProba x = .ok rows →
      row ∈ rows → q ∈ row → 0 ≤ q ∧ q ≤ 1) :
    (0 ≤ prob ∧ prob ≤ 1) ∧ (pred = 0 ∨ pred = 1) := by
  obtain ⟨model, preproc, r, x, hm, -, -, -, hsc, -, -, -⟩ := predict_ok_inv hok
  injection hm with hm
  subst hm
  cases hgb : m.getBooster with
  | some b =>
    cases hraw : b.predictRaw x with
    | error e => simp [score, hgb, hraw, exc_bind_error] at hsc
    | ok raw =>
      cases raw with
      | nil => simp [score, hgb, hraw, elem0, exc_bind_ok, exc_map_error] at hsc
      | cons p rest =>
        have he : score m x = .ok ((if Rat.divInt 1 2 ≤ p then 1 else 0), p) := by
          simp [score, hgb, hraw, elem0, exc_bind_ok, exc_map_ok]
        rw [he] at hsc
        injection hsc with hpair
        rw [Prod.ext_iff] at hpair
        obtain ⟨h1, h2⟩ := hpair
        dsimp at h1 h2
        subst h2
        refine ⟨hboost b x (p :: rest) p hgb hraw (by simp), ?_⟩
        by_cases hc : Rat.divInt 1 2 ≤ p
        · rw [if_pos hc] at h1; right; omega
        · rw [if_neg hc] at h1; left; omega
  | none =>
    cases hpreds : m.wrapperPredict x with
    | error e => simp [score, hgb, hpreds, exc_bind_error] at hsc
    | ok preds =>
      cases preds with
      | nil => simp [score, hgb, hpreds, elem0, exc_bind_ok, exc_bind_error] at hsc
      | cons lab lrest =>
        cases hrows : m.wrapperPredictProba x with
        | error e =>
          simp [score, hgb, hpreds, hrows, elem0, exc_bind_ok, exc_bind_error] at hsc
        | ok rows =>
          cases rows with
          | nil =>
            simp [score, hgb, hpreds, hrows, elem0, exc_bind_ok, exc_bind_error] at hsc
          | cons row prest =>
            match row, hrows with
            | [], hrows =>
              simp [score, hgb, hpreds, hrows, elem0, elemAt, exc_bind_ok,
                exc_map_error] at hsc
            | [p0], hrows =>
              simp [score, hgb, hpreds, hrows, elem0, elemAt, exc_bind_ok,
                exc_map_error] at hsc
            | p0 :: p1 :: rtl, hrows =>
              have he : score m x = .ok (lab, p1) := by
                simp [score, hgb, hpreds, hrows, elem0, elemAt, exc_bind_ok,
                  exc_map_ok]
              rw [he] at hsc
              injection hsc with hpair
              rw [Prod.ext_iff] at hpair
              obtain ⟨h1, h2⟩ := hpair
              dsimp at h1 h2
              subst h1; subst h2
              refine ⟨hwproba x ((p0 :: p1 :: rtl) :: prest) (p0 :: p1 :: rtl)
                p1 hrows (by simp) (by simp), ?_⟩
              exact hwpred x (lab :: lrest) lab hpreds (by simp)

/-- Witness for C5: the ranges evaluated on the demo model's response. -/
theorem c5_witness :
    (0 ≤ Rat.divInt 7 10 ∧ Rat.divInt 7 10 ≤ 1) ∧
    ((1 : ℤ) = 0 ∨ (1 : ℤ) = 1) := by
  refine c5_output_ranges demoModel (some demoPre) (some tvTypical) 1
    (Rat.divInt 7 10) (highRiskMessage (Rat.divInt 7 10)) "High Risk"
    "Typical risk profile for provided features" (by decide) ?_ ?_ ?_
  · intro b x l q hb hl hq
    simp only [demoModel, Option.some.injEq] at hb
    subst hb
    simp only [demoBooster, Except.ok.injEq] at hl
    subst hl
    simp only [List.mem_singleton] at hq
    subst hq
    exact ⟨by decide, by decide⟩
  · intro x l lab hl hlab
    simp only [demoModel, Except.ok.injEq] at hl
    subst hl
    simp only [List.mem_singleton] at hlab
    subst hlab
    exact Or.inl rfl
  · intro x rows row q hrows hrow hq
    simp only [demoModel, Except.ok.injEq] at hrows
    subst hrows
    simp only [List.mem_singleton] at hrow
    subst hrow
    rcases List.mem_pair.mp hq with h | h <;> subst h
    · exact ⟨by decide, by decide⟩
    · exact ⟨by decide, by decide⟩

end CreditRisk
